import Mathlib

/-!
Shallow embedding of the vehicle-damage cost-estimation core of the
KLUHACKATHON repository: `src/utils/severity.py`,
`src/utils/cost_estimator.py` and `src/utils/report_generator.py`.

Python floats are modelled by `ℚ`; Python `round(x, 2)` is modelled by
`round2` below (round-to-nearest on the value scaled by 100; Mathlib's
`round` breaks ties upward where Python's float rounding breaks them to
even — every concrete input used below stays away from ties); dictionary
fields read with `.get(key, default)` are modelled as `Option` fields read
with `Option.getD`.  Python dictionaries used as keyed tables are modelled
as association lists (`List (String × _)`), looked up with `List.lookup`.
-/

namespace VisionClaim

attribute [local semireducible] Rat.add Rat.mul Rat.sub Rat.inv Rat.ofScientific

set_option maxRecDepth 10000

/-- Model of Python `round(x, 2)`: round to the nearest hundredth. -/
def round2 (x : ℚ) : ℚ := (round (x * 100) : ℤ) / 100

/-- One detected defect, as consumed by `assess_severity` and
`estimate_costs` (`src/utils/severity.py`, `src/utils/cost_estimator.py`).
Each field models a dictionary key that may be absent. -/
structure Damage where
  part : Option String
  damage_type : Option String
  severity : Option String
  confidence : Option ℚ
  description : Option String
deriving DecidableEq

/-- Display metadata for one severity level, one entry of the
`SEVERITY_LEVELS` table of `src/utils/severity.py`. -/
structure SeverityInfo where
  label : String
  description : String
  color : String
  icon : String
  action : String
deriving DecidableEq

/-- The `minor` entry of `SEVERITY_LEVELS` (`src/utils/severity.py`, lines 5-11). -/
def minorInfo : SeverityInfo :=
  { label := "Minor"
    description := "Cosmetic damage, no structural impact"
    color := "#22c55e"
    icon := "🟢"
    action := "Repair recommended within 30 days" }

/-- The `SEVERITY_LEVELS` table of `src/utils/severity.py` (lines 4-26),
as a partial map from severity key to display metadata. -/
def SEVERITY_LEVELS (key : String) : Option SeverityInfo :=
  if key = "minor" then some minorInfo
  else if key = "moderate" then
    some { label := "Moderate"
           description := "Significant damage requiring professional repair"
           color := "#f59e0b"
           icon := "🟡"
           action := "Repair recommended within 7 days" }
  else if key = "severe" then
    some { label := "Severe"
           description := "Major structural damage, may affect safety"
           color := "#ef4444"
           icon := "🔴"
           action := "Immediate professional assessment required" }
  else none

/-- The `severity_scores` map of `assess_severity`
(`src/utils/severity.py`, line 44): `{'minor': 1, 'moderate': 2, 'severe': 3}`. -/
def severity_scores (s : String) : Option ℚ :=
  if s = "minor" then some 1
  else if s = "moderate" then some 2
  else if s = "severe" then some 3
  else none

/-- The numeric weight contributed by one damage in `assess_severity`:
`severity = damage.get('severity', 'minor')` then
`severity_scores.get(severity, 1)` (lines 49-50). -/
def damageWeight (d : Damage) : ℚ :=
  (severity_scores (d.severity.getD "minor")).getD 1

/-- One entry of the severity breakdown (`src/utils/severity.py`, lines 54-63).
The four cost fields are absent when the entry is created and are only
added by the report generator's enrichment step
(`src/utils/report_generator.py`, lines 71-74). -/
structure BreakdownEntry where
  part : String
  damage_type : String
  severity : String
  severity_label : String
  color : String
  icon : String
  confidence : ℚ
  description : String
  part_cost : Option ℚ := none
  labor_cost : Option ℚ := none
  paint_cost : Option ℚ := none
  total_cost : Option ℚ := none
deriving DecidableEq

/-- Builds the breakdown entry for one damage (`src/utils/severity.py`,
lines 49-63). -/
def breakdownOf (d : Damage) : BreakdownEntry :=
  let severity := d.severity.getD "minor"
  let info := (SEVERITY_LEVELS severity).getD minorInfo
  { part := d.part.getD "unknown"
    damage_type := d.damage_type.getD "unknown"
    severity := severity
    severity_label := info.label
    color := info.color
    icon := info.icon
    confidence := d.confidence.getD 0
    description := d.description.getD "" }

/-- The dictionary returned by `assess_severity`.  The `icon`, `action`
and `damage_count` keys are absent in the empty-input result
(`src/utils/severity.py`, lines 35-42) and present otherwise, so they are
modelled as `Option` fields. -/
structure SeverityVerdict where
  overall : String
  label : String
  description : String
  color : String
  icon : Option String
  action : Option String
  score : ℚ
  damage_count : Option ℕ
  breakdown : List BreakdownEntry
deriving DecidableEq

/-- Model of `assess_severity` (`src/utils/severity.py`, lines 29-91).
The accumulation loop over `damages` is rendered as a `map`/`sum` for the
total score and a `map` for the breakdown. -/
def assess_severity (damages : List Damage) : SeverityVerdict :=
  match damages with
  | [] =>
    { overall := "none"
      label := "No Damage"
      description := "No visible damage detected"
      color := "#22c55e"
      icon := none
      action := none
      score := 0
      damage_count := none
      breakdown := [] }
  | _ :: _ =>
    let total_score := (damages.map damageWeight).sum
    let breakdown := damages.map breakdownOf
    let avg_score := total_score / (damages.length : ℚ)
    let overall0 :=
      if avg_score ≤ 1.3 then "minor"
      else if avg_score ≤ 2.3 then "moderate"
      else "severe"
    let hasSevere := damages.any fun d => d.severity == some "severe"
    let overall := if hasSevere ∧ overall0 = "minor" then "moderate" else overall0
    let info := (SEVERITY_LEVELS overall).getD minorInfo
    { overall := overall
      label := info.label
      description := info.description
      color := info.color
      icon := some info.icon
      action := some info.action
      score := round2 avg_score
      damage_count := some damages.length
      breakdown := breakdown }

/-! Cost estimator (`src/utils/cost_estimator.py`). -/

/-- A `{min, max}` cost range of the pricing catalog. -/
structure CostRange where
  min : ℚ
  max : ℚ
deriving DecidableEq

/-- The `{repair, replacement}` labor-hours record of one catalog part. -/
structure LaborHours where
  repair : ℚ
  replacement : ℚ
deriving DecidableEq

/-- One part entry of the pricing catalog's `parts` table. -/
structure PartInfo where
  name : String
  repair_cost : CostRange
  replacement_cost : CostRange
  labor_hours : LaborHours
deriving DecidableEq

/-- One entry of the catalog's `exchange_rates` table: a `rate` multiplier
from the base currency and a display `symbol`. -/
structure CurrencyInfo where
  rate : ℚ
  symbol : String
deriving DecidableEq

/-- The pricing catalog loaded by `load_cost_data` and destructured at the
top of `estimate_costs` (`src/utils/cost_estimator.py`, lines 18-25). -/
structure CostData where
  parts : List (String × PartInfo)
  labor_rate_per_hour : ℚ
  paint_cost_per_panel : CostRange
  severity_multipliers : List (String × ℚ)
  exchange_rates : List (String × CurrencyInfo)
deriving DecidableEq

/-- Model of Python `str.replace('_', ' ')` on the strings used here. -/
def underscoresToSpaces (s : String) : String :=
  String.mk (s.data.map fun c => if c = '_' then ' ' else c)

/-- Character-level worker for `pyTitle`: the boolean records whether the
previous character was alphabetic. -/
def titleChars : Bool → List Char → List Char
  | _, [] => []
  | prev, c :: cs =>
    (if c.isAlpha then (if prev then c.toLower else c.toUpper) else c) :: titleChars c.isAlpha cs

/-- Model of Python `str.title()` (ASCII letters suffice for the part and
damage-type keys used in this repository). -/
def pyTitle (s : String) : String := String.mk (titleChars false s.data)

/-- The default pricing entry substituted for unknown parts
(`src/utils/cost_estimator.py`, lines 46-53). -/
def defaultPartInfo (part_key : String) : PartInfo :=
  { name := pyTitle (underscoresToSpaces part_key)
    repair_cost := { min := 4500, max := 12000 }
    replacement_cost := { min := 15000, max := 45000 }
    labor_hours := { repair := 2, replacement := 3 } }

/-- The base-currency fallback of the currency-resolution step
(`src/utils/cost_estimator.py`, lines 30-33): rate `1.0`, the INR symbol
taken from the catalog when present. -/
def fallbackCurrency (cd : CostData) : ℚ × String × String :=
  (1, ((cd.exchange_rates.lookup "INR").map CurrencyInfo.symbol).getD "₹", "INR")

/-- Currency resolution (`src/utils/cost_estimator.py`, lines 26-33),
returning `(rate, symbol, currency_code)`.  Python's
`if target_currency and target_currency in exchange_rates` treats both a
missing argument and an empty string as falsy. -/
def resolvedCurrency (cd : CostData) (target_currency : Option String) : ℚ × String × String :=
  match target_currency with
  | none => fallbackCurrency cd
  | some t =>
    if t = "" then fallbackCurrency cd
    else
      match cd.exchange_rates.lookup t with
      | some ci => (ci.rate, ci.symbol, t)
      | none => fallbackCurrency cd

/-- Effective part key of a damage: `damage.get('part', '')` (line 41). -/
def effPart (d : Damage) : String := d.part.getD ""

/-- Effective severity of a damage: `damage.get('severity', 'minor')` (line 42). -/
def effSeverity (d : Damage) : String := d.severity.getD "minor"

/-- Effective damage type: `damage.get('damage_type', 'scratch')` (line 43). -/
def effDamageType (d : Damage) : String := d.damage_type.getD "scratch"

/-- Part lookup with the default entry for unknown parts
(`src/utils/cost_estimator.py`, lines 45-53). -/
def partInfoFor (cd : CostData) (d : Damage) : PartInfo :=
  (cd.parts.lookup (effPart d)).getD (defaultPartInfo (effPart d))

/-- Severity-multiplier lookup: `severity_multipliers.get(severity, 0.5)` (line 55). -/
def multiplierFor (cd : CostData) (d : Damage) : ℚ :=
  (cd.severity_multipliers.lookup (effSeverity d)).getD 0.5

/-- The repair-vs-replace decision (`src/utils/cost_estimator.py`, line 58):
`severity == 'severe' or damage_type in ['shatter', 'structural']`. -/
def needsReplacement (d : Damage) : Bool :=
  effSeverity d == "severe" || (effDamageType d == "shatter" || effDamageType d == "structural")

/-- Linear interpolation inside a cost range (lines 70 and 72):
`min + (max - min) * multiplier`. -/
def interp (r : CostRange) (m : ℚ) : ℚ := r.min + (r.max - r.min) * m

/-- The cost range selected by the repair-vs-replace decision (lines 60-67). -/
def selectedRange (cd : CostData) (d : Damage) : CostRange :=
  if needsReplacement d then (partInfoFor cd d).replacement_cost
  else (partInfoFor cd d).repair_cost

/-- The labor-hours figure selected by the repair-vs-replace decision
(lines 62 and 66). -/
def laborHoursFor (cd : CostData) (d : Damage) : ℚ :=
  if needsReplacement d then (partInfoFor cd d).labor_hours.replacement
  else (partInfoFor cd d).labor_hours.repair

/-- The `action` string of the line item (lines 63 and 67). -/
def actionFor (d : Damage) : String :=
  if needsReplacement d then "Replace" else "Repair"

/-- Base-currency part cost (line 70). -/
def partCostBase (cd : CostData) (d : Damage) : ℚ :=
  interp (selectedRange cd d) (multiplierFor cd d)

/-- Base-currency labor cost (line 71): `labor_hours * labor_rate`. -/
def laborCostBase (cd : CostData) (d : Damage) : ℚ :=
  laborHoursFor cd d * cd.labor_rate_per_hour

/-- Base-currency panel paint cost (line 72). -/
def paintCostBase (cd : CostData) (d : Damage) : ℚ :=
  interp cd.paint_cost_per_panel (multiplierFor cd d)

/-- The paint-applicability rule (`src/utils/cost_estimator.py`, line 75):
`damage_type not in ['shatter', 'crack'] or part_key not in
['headlight', 'taillight', 'windshield', 'side_mirror']`. -/
def needsPaint (d : Damage) : Bool :=
  !(effDamageType d == "shatter" || effDamageType d == "crack") ||
  !(effPart d == "headlight" || (effPart d == "taillight" ||
    (effPart d == "windshield" || effPart d == "side_mirror")))

/-- One priced line item (`src/utils/cost_estimator.py`, lines 78-89). -/
structure LineItem where
  part_name : String
  part_key : String
  action : String
  damage_type : String
  severity : String
  part_cost : ℚ
  labor_cost : ℚ
  labor_hours : ℚ
  paint_cost : ℚ
  subtotal : ℚ
deriving DecidableEq

/-- Builds the line item for one damage at the resolved exchange rate
(`src/utils/cost_estimator.py`, lines 40-89). -/
def lineItemFor (cd : CostData) (rate : ℚ) (d : Damage) : LineItem :=
  { part_name := (partInfoFor cd d).name
    part_key := effPart d
    action := actionFor d
    damage_type := pyTitle (underscoresToSpaces (effDamageType d))
    severity := effSeverity d
    part_cost := round2 (partCostBase cd d * rate)
    labor_cost := round2 (laborCostBase cd d * rate)
    labor_hours := laborHoursFor cd d
    paint_cost := if needsPaint d then round2 (paintCostBase cd d * rate) else 0
    subtotal := round2 ((partCostBase cd d + laborCostBase cd d +
      (if needsPaint d then paintCostBase cd d else 0)) * rate) }

/-- The recommendation record (`src/utils/cost_estimator.py`, lines 126-158). -/
structure Recommendation where
  status : String
  status_color : String
  message : String
  next_steps : List String
deriving DecidableEq

/-- Comma-grouping worker: walking the reversed digit list, a comma is
inserted before every third digit counted from the units digit. -/
def commaGroupAux : Nat → List Char → List Char
  | _, [] => []
  | k, c :: cs =>
    if k % 3 = 0 ∧ k ≠ 0 then ',' :: c :: commaGroupAux (k + 1) cs
    else c :: commaGroupAux (k + 1) cs

/-- Model of the Python format specifier `:,.2f` used in the
recommendation messages: two decimal places, thousands separated by
commas. -/
def formatMoney (x : ℚ) : String :=
  let c : ℤ := round (x * 100)
  let n : ℕ := c.natAbs
  let intChars := (commaGroupAux 0 (Nat.toDigits 10 (n / 100)).reverse).reverse
  let fracChars := (if n % 100 < 10 then ['0'] else []) ++ Nat.toDigits 10 (n % 100)
  (if c < 0 then "-" else "") ++ String.mk intChars ++ "." ++ String.mk fracChars

/-- Model of `get_recommendation` (`src/utils/cost_estimator.py`,
lines 122-158).  The severity assessment is read only through
`severity_assessment.get('overall', 'minor')`, modelled here by an
`Option String` argument. -/
def get_recommendation (overallField : Option String) (total_cost : ℚ)
    (symbol : String := "₹") : Recommendation :=
  let overall := overallField.getD "minor"
  if overall = "minor" then
    { status := "PRE-APPROVED"
      status_color := "#22c55e"
      message := "This claim of " ++ symbol ++ formatMoney total_cost ++
        " is pre-approved for immediate processing."
      next_steps := ["Choose a certified repair shop from our network",
        "Schedule your repair appointment",
        "Repairs will begin upon vehicle drop-off"] }
  else if overall = "moderate" then
    { status := "PRE-APPROVED"
      status_color := "#22c55e"
      message := "This claim of " ++ symbol ++ formatMoney total_cost ++
        " is pre-approved. A brief review may be conducted."
      next_steps := ["Select a certified repair facility",
        "An adjuster may contact you within 24 hours",
        "Repairs can proceed after brief verification"] }
  else
    { status := "REVIEW REQUIRED"
      status_color := "#f59e0b"
      message := "This claim of " ++ symbol ++ formatMoney total_cost ++
        " requires adjuster review due to severity."
      next_steps := ["An adjuster will be assigned within 2 hours",
        "In-person inspection may be required",
        "Estimated review completion: 24-48 hours"] }

/-- Model of `estimate_repair_time` (`src/utils/cost_estimator.py`,
lines 161-169): total labor hours over 6 productive hours per day, rounded
to the nearest integer, floored at 1, plus 2 buffer days when any line
item is a replacement. -/
def estimate_repair_time (line_items : List LineItem) : ℤ :=
  let total_hours := (line_items.map LineItem.labor_hours).sum
  let days := max 1 (round (total_hours / 6))
  if line_items.any fun item => item.action == "Replace" then days + 2 else days

/-- The `summary` record of a cost estimate
(`src/utils/cost_estimator.py`, lines 106-116). -/
structure Summary where
  total_parts : ℚ
  total_labor : ℚ
  total_paint : ℚ
  subtotal : ℚ
  tax_rate : ℚ
  tax : ℚ
  total : ℚ
  currency : String
  symbol : String
deriving DecidableEq

/-- The record returned by `estimate_costs`
(`src/utils/cost_estimator.py`, lines 104-119). -/
structure CostEstimate where
  line_items : List LineItem
  summary : Summary
  recommendation : Recommendation
  estimated_repair_days : ℤ
deriving DecidableEq

/-- The fixed GST tax rate (`src/utils/cost_estimator.py`, line 98). -/
def taxRate : ℚ := 0.18

/-- The accumulated `total_parts_cost` of the pricing loop
(`src/utils/cost_estimator.py`, line 92), in base currency. -/
def partsBase (cd : CostData) (damages : List Damage) : ℚ :=
  (damages.map (partCostBase cd)).sum

/-- The accumulated `total_labor_cost` of the pricing loop (line 93). -/
def laborBase (cd : CostData) (damages : List Damage) : ℚ :=
  (damages.map (laborCostBase cd)).sum

/-- The accumulated `total_paint_cost` of the pricing loop (lines 94-95):
only damages needing paint contribute. -/
def paintTotalBase (cd : CostData) (damages : List Damage) : ℚ :=
  (damages.map fun d => if needsPaint d then paintCostBase cd d else 0).sum

/-- The base-currency subtotal (`src/utils/cost_estimator.py`, line 97). -/
def subtotalBase (cd : CostData) (damages : List Damage) : ℚ :=
  partsBase cd damages + laborBase cd damages + paintTotalBase cd damages

/-- Model of `estimate_costs` (`src/utils/cost_estimator.py`,
lines 13-119).  The accumulation loop over `damages` is rendered as
`map`/`sum` over the per-damage base-cost functions; the pricing catalog,
loaded from the external JSON database in Python, is an explicit
argument. -/
def estimate_costs (damages : List Damage) (severity_assessment : SeverityVerdict)
    (target_currency : Option String) (cd : CostData) : CostEstimate :=
  let res := resolvedCurrency cd target_currency
  let rate := res.1
  let symbol := res.2.1
  let currency_code := res.2.2
  let line_items := damages.map (lineItemFor cd rate)
  let total_parts_cost := partsBase cd damages
  let total_labor_cost := laborBase cd damages
  let total_paint_cost := paintTotalBase cd damages
  let subtotal_base := total_parts_cost + total_labor_cost + total_paint_cost
  let tax_base := subtotal_base * taxRate
  let total_base := subtotal_base + tax_base
  let total_target := total_base * rate
  { line_items := line_items
    summary :=
      { total_parts := round2 (total_parts_cost * rate)
        total_labor := round2 (total_labor_cost * rate)
        total_paint := round2 (total_paint_cost * rate)
        subtotal := round2 (subtotal_base * rate)
        tax_rate := taxRate
        tax := round2 (tax_base * rate)
        total := round2 total_target
        currency := currency_code
        symbol := symbol }
    recommendation := get_recommendation (some severity_assessment.overall) total_target symbol
    estimated_repair_days := estimate_repair_time line_items }

/-! Report assembler (`src/utils/report_generator.py`). -/

/-- Vehicle metadata supplied by the detection collaborator, as read by
`generate_report` (`src/utils/report_generator.py`, lines 16-23). -/
structure DetectionResult where
  vehicle_type : Option String
  vehicle_color : Option String
  drivable : Option Bool
  summary : Option String
deriving DecidableEq

/-- The `vehicle_info` block of the report (lines 16-20). -/
structure VehicleInfo where
  type : String
  color : String
  drivable : Bool
deriving DecidableEq

/-- The `damage_assessment` block of the report (lines 22-30). -/
structure DamageAssessment where
  summary : String
  overall_severity : String
  severity_color : String
  severity_icon : String
  severity_action : String
  damage_count : ℕ
  damages : List BreakdownEntry
deriving DecidableEq

/-- The final report record (`src/utils/report_generator.py`, lines 11-38).
The two timestamp-derived strings are explicit inputs of the model. -/
structure Report where
  report_id : String
  generated_at : String
  image_file : Option String
  vehicle_info : VehicleInfo
  damage_assessment : DamageAssessment
  cost_estimate : Summary
  line_items : List LineItem
  recommendation : Recommendation
  estimated_repair_days : ℤ
  disclaimer : String
deriving DecidableEq

/-- Aggregated per-part costs collected from the line items
(`src/utils/report_generator.py`, lines 42-60). -/
structure CostAgg where
  part_cost : ℚ
  labor_cost : ℚ
  paint_cost : ℚ
  subtotal : ℚ
deriving DecidableEq

/-- Adds one line item into an existing aggregate (lines 49-53). -/
def addAgg (a : CostAgg) (item : LineItem) : CostAgg :=
  { part_cost := a.part_cost + item.part_cost
    labor_cost := a.labor_cost + item.labor_cost
    paint_cost := a.paint_cost + item.paint_cost
    subtotal := a.subtotal + item.subtotal }

/-- Inserts one line item into the keyed aggregate table, merging with an
existing entry for the same part key and otherwise appending (insertion
order preserved, as for a Python dict). -/
def insertItem (table : List (String × CostAgg)) (key : String) (item : LineItem) :
    List (String × CostAgg) :=
  match table with
  | [] => [(key, { part_cost := item.part_cost, labor_cost := item.labor_cost,
                   paint_cost := item.paint_cost, subtotal := item.subtotal })]
  | (k, a) :: rest =>
    if k = key then (k, addAgg a item) :: rest
    else (k, a) :: insertItem rest key item

/-- The `line_items_by_part` table of `generate_report`
(`src/utils/report_generator.py`, lines 42-60): items with an empty part
key are skipped, same-part items are aggregated. -/
def lineItemsByPart (items : List LineItem) : List (String × CostAgg) :=
  items.foldl (fun table item =>
    if item.part_key = "" then table else insertItem table item.part_key item) []

/-- The enrichment applied to one breakdown entry
(`src/utils/report_generator.py`, lines 63-74): entries with an empty part
key, or whose part has no aggregated costs, are left unchanged; otherwise
the four rounded aggregate figures are attached. -/
def enrichEntry (table : List (String × CostAgg)) (e : BreakdownEntry) : BreakdownEntry :=
  if e.part = "" then e
  else
    match table.lookup e.part with
    | none => e
    | some c =>
      { e with part_cost := some (round2 c.part_cost)
               labor_cost := some (round2 c.labor_cost)
               paint_cost := some (round2 c.paint_cost)
               total_cost := some (round2 c.subtotal) }

/-- Model of `generate_report` (`src/utils/report_generator.py`,
lines 6-79).  In Python the enrichment loop mutates the damage dicts that
the severity assessment's `breakdown` list and the report's `damages` list
share, so the model returns both the report and the post-state of the
severity assessment.  `nowCompact` and `nowIso` stand for the two
`datetime.now()` renderings. -/
def generate_report (detection_result : DetectionResult)
    (severity_assessment : SeverityVerdict) (cost_estimate : CostEstimate)
    (image_filename : Option String) (nowCompact nowIso : String) :
    Report × SeverityVerdict :=
  let table := lineItemsByPart cost_estimate.line_items
  let enriched := severity_assessment.breakdown.map (enrichEntry table)
  ({ report_id := "VCR-" ++ nowCompact
     generated_at := nowIso
     image_file := image_filename
     vehicle_info :=
       { type := detection_result.vehicle_type.getD "Unknown"
         color := detection_result.vehicle_color.getD "Unknown"
         drivable := detection_result.drivable.getD true }
     damage_assessment :=
       { summary := detection_result.summary.getD ""
         overall_severity := severity_assessment.label
         severity_color := severity_assessment.color
         severity_icon := severity_assessment.icon.getD ""
         severity_action := severity_assessment.action.getD ""
         damage_count := severity_assessment.damage_count.getD 0
         damages := enriched }
     cost_estimate := cost_estimate.summary
     line_items := cost_estimate.line_items
     recommendation := cost_estimate.recommendation
     estimated_repair_days := cost_estimate.estimated_repair_days
     disclaimer := "This is an AI-generated pre-approval estimate. Final costs may vary based on in-person inspection. This estimate is valid for 30 days from the date of generation." },
   { severity_assessment with breakdown := enriched })

/-! Catalog invariants stated in the specification for the pricing
catalog, used as hypotheses by the catalog-generic claims. -/

/-- The pricing-catalog invariants of the specification: every cost range
has `min ≤ max`, every severity multiplier lies in `[0, 1]`, every
exchange rate is nonnegative, and the base currency `INR` is present with
rate `1.0`. -/
def CatalogInvariants (cd : CostData) : Prop :=
  (∀ p ∈ cd.parts, p.2.repair_cost.min ≤ p.2.repair_cost.max ∧
      p.2.replacement_cost.min ≤ p.2.replacement_cost.max) ∧
  cd.paint_cost_per_panel.min ≤ cd.paint_cost_per_panel.max ∧
  (∀ m ∈ cd.severity_multipliers, 0 ≤ m.2 ∧ m.2 ≤ 1) ∧
  (∀ e ∈ cd.exchange_rates, 0 ≤ e.2.rate) ∧
  (∃ s, cd.exchange_rates.lookup "INR" = some { rate := 1, symbol := s })

instance (cd : CostData) : Decidable (CatalogInvariants cd) := by
  unfold CatalogInvariants
  have hdec : Decidable (∃ s, cd.exchange_rates.lookup "INR" = some { rate := 1, symbol := s }) := by
    rcases h : cd.exchange_rates.lookup "INR" with _ | ⟨r, s⟩
    · exact isFalse (fun hx => by
        obtain ⟨s', hs'⟩ := hx
        exact Option.noConfusion hs')
    · by_cases hr : r = 1
      · subst hr
        exact isTrue ⟨s, rfl⟩
      · refine isFalse (fun hx => hr ?_)
        obtain ⟨s', hs'⟩ := hx
        injection hs' with h3
        exact congrArg CurrencyInfo.rate h3
  exact instDecidableAnd

/-! Claim-side definitions. -/

/-- Per-damage severity weight exactly as the specification words it:
`minor = 1`, `moderate = 2`, `severe = 3`, unknown or missing severity
counted as 1.  Claim-side counterpart of `damageWeight`. -/
def claimWeight (d : Damage) : ℚ :=
  match d.severity with
  | none => 1
  | some s =>
    if s = "minor" then 1
    else if s = "moderate" then 2
    else if s = "severe" then 3
    else 1

/-- Overall severity as the specification words it: fixed thresholds
applied to a mean, then the single-step escalation from `minor` to
`moderate` when a severe damage is present. -/
def specOverall (mean : ℚ) (hasSevere : Bool) : String :=
  let base := if mean ≤ 1.3 then "minor" else if mean ≤ 2.3 then "moderate" else "severe"
  if hasSevere ∧ base = "minor" then "moderate" else base

/-! Sample data used by concrete witnesses and counterexamples. -/

/-- A minor scratch on the front bumper. -/
def dMinorScratch : Damage := ⟨some "front_bumper", some "scratch", some "minor", none, none⟩

/-- A moderate dent on the front bumper. -/
def dModerateDent : Damage := ⟨some "front_bumper", some "dent", some "moderate", none, none⟩

/-- Twenty-three damages, sixteen minor and seven moderate: the mean
weight is `30 / 23 ≈ 1.3043`, which rounds to `1.30`. -/
def dmgs23 : List Damage := List.replicate 16 dMinorScratch ++ List.replicate 7 dModerateDent

/-- Catalog entry used by the sample catalog. -/
def frontBumperInfo : PartInfo := ⟨"Front Bumper", ⟨2000, 8000⟩, ⟨12000, 30000⟩, ⟨3, 5⟩⟩

/-- Catalog entry used by the sample catalog. -/
def hoodInfo : PartInfo := ⟨"Hood", ⟨3000, 10000⟩, ⟨15000, 40000⟩, ⟨4, 6⟩⟩

/-- Catalog entry used by the sample catalog. -/
def windshieldInfo : PartInfo := ⟨"Windshield", ⟨1500, 4000⟩, ⟨8000, 20000⟩, ⟨1, 3⟩⟩

/-- A small realistic pricing catalog satisfying the catalog invariants. -/
def cdSample : CostData :=
  { parts := [("front_bumper", frontBumperInfo), ("hood", hoodInfo),
      ("windshield", windshieldInfo)]
    labor_rate_per_hour := 800
    paint_cost_per_panel := ⟨2500, 6000⟩
    severity_multipliers := [("minor", 0.3), ("moderate", 0.6), ("severe", 0.9)]
    exchange_rates := [("INR", ⟨1, "₹"⟩), ("USD", ⟨0.012, "$"⟩)] }

/-- A moderate shatter of the windshield (forces replacement and
suppresses paint). -/
def dShatterWindshield : Damage := ⟨some "windshield", some "shatter", some "moderate", none, none⟩

/-- Severity verdict for the single shattered-windshield damage. -/
def saSample : SeverityVerdict := assess_severity [dShatterWindshield]

/-- A minor scratch on a part named `p`. -/
def dPlainMinor : Damage := ⟨some "p", some "scratch", some "minor", none, none⟩

/-- Degenerate catalog entry whose repair and replacement costs are the
constant `11803 / 1180`, chosen so that the base-currency grand total is
`11.803`. -/
def pInfoBig : PartInfo := ⟨"P", ⟨11803/1180, 11803/1180⟩, ⟨11803/1180, 11803/1180⟩, ⟨0, 0⟩⟩

/-- Catalog with an extreme (but invariant-respecting) exchange rate of
100, used to break the claimed 0.01 round-trip tolerance. -/
def cdBig : CostData :=
  { parts := [("p", pInfoBig)]
    labor_rate_per_hour := 0
    paint_cost_per_panel := ⟨0, 0⟩
    severity_multipliers := [("minor", 0.5)]
    exchange_rates := [("INR", ⟨1, "₹"⟩), ("BIG", ⟨100, "B"⟩)] }

/-- Catalog whose paint range `[0, 1/250]` has positive width yet always
yields a paint figure below half a cent. -/
def cdPaintTiny : CostData :=
  { parts := []
    labor_rate_per_hour := 0
    paint_cost_per_panel := ⟨0, 1/250⟩
    severity_multipliers := [("minor", 1)]
    exchange_rates := [("INR", ⟨1, "₹"⟩)] }

/-- A minor crack on the hood (paintable part, crack damage type). -/
def crackHood : Damage := ⟨some "hood", some "crack", some "minor", none, none⟩

/-- Degenerate catalog entry with the constant cost `1/500`, inside whose
one-point range the rounded part cost cannot stay. -/
def pInfoDeg : PartInfo := ⟨"P", ⟨1/500, 1/500⟩, ⟨1/500, 1/500⟩, ⟨0, 0⟩⟩

/-- Catalog built around `pInfoDeg`; it satisfies the catalog invariants. -/
def cdDeg : CostData :=
  { parts := [("p", pInfoDeg)]
    labor_rate_per_hour := 0
    paint_cost_per_panel := ⟨0, 0⟩
    severity_multipliers := [("minor", 0.5)]
    exchange_rates := [("INR", ⟨1, "₹"⟩)] }

/-- Sample detection output. -/
def detSample : DetectionResult := ⟨some "Sedan", some "Red", some true, some "ok"⟩

/-- A moderate dent on the hood with confidence and description set. -/
def dHoodDent : Damage := ⟨some "hood", some "dent", some "moderate", some (9/10), some "d"⟩

/-- Severity verdict over the single hood dent. -/
def saHood : SeverityVerdict := assess_severity [dHoodDent]

/-- Cost estimate over the single hood dent in the base currency. -/
def ceHood : CostEstimate := estimate_costs [dHoodDent] saHood none cdSample

/-- Two repair-only line items totalling 12 labor hours. -/
def itemsNoReplace : List LineItem :=
  [⟨"Front Bumper", "front_bumper", "Repair", "Dent", "minor", 0, 0, 7, 0, 0⟩,
   ⟨"Hood", "hood", "Repair", "Dent", "minor", 0, 0, 5, 0, 0⟩]

/-- The same 12 labor hours with one replacement line item. -/
def itemsWithReplace : List LineItem :=
  [⟨"Front Bumper", "front_bumper", "Replace", "Dent", "minor", 0, 0, 7, 0, 0⟩,
   ⟨"Hood", "hood", "Repair", "Dent", "minor", 0, 0, 5, 0, 0⟩]

/-! Helper lemmas. -/

/-- Rounding to two decimals moves a value by at most `1/200`. -/
lemma abs_round2_sub (x : ℚ) : |round2 x - x| ≤ 1 / 200 := by
  have h : |x * 100 - round (x * 100)| ≤ 1 / 2 := abs_sub_round (x * 100)
  have h2 : round2 x - x = -((x * 100 - (round (x * 100) : ℚ)) / 100) := by
    unfold round2
    ring
  rw [h2, abs_neg, abs_div]
  have h100 : |(100 : ℚ)| = 100 := by norm_num
  rw [h100]
  linarith

/-- Rounding to two decimals is monotone. -/
lemma round2_mono {x y : ℚ} (h : x ≤ y) : round2 x ≤ round2 y := by
  unfold round2
  have : round (x * 100) ≤ round (y * 100) := by
    rw [round_eq, round_eq]
    exact Int.floor_mono (by linarith)
  have hcast : ((round (x * 100) : ℤ) : ℚ) ≤ ((round (y * 100) : ℤ) : ℚ) := by
    exact_mod_cast this
  linarith

/-- A value of at least half a cent rounds to a positive amount. -/
lemma round2_pos {x : ℚ} (hx : 1 / 200 ≤ x) : 0 < round2 x := by
  have h1 : round2 (1 / 200) ≤ round2 x := round2_mono hx
  have h2 : round2 (1 / 200 : ℚ) = 1 / 100 := by
    unfold round2
    norm_num [round_eq]
  rw [h2] at h1
  linarith

/-- The claim-side severity weight agrees with the implementation's. -/
lemma claimWeight_eq (d : Damage) : claimWeight d = damageWeight d := by
  cases h : d.severity with
  | none => simp [claimWeight, damageWeight, h, severity_scores]
  | some s =>
    simp only [claimWeight, damageWeight, h, Option.getD_some]
    unfold severity_scores
    split_ifs <;> simp

/-! Claim C1. -/

/-- C1 (counterexample): on twenty-three damages (sixteen minor, seven
moderate) the verdict's score is `1.30 ≤ 1.3` and no damage is severe, so
the claim's threshold bands applied to the score demand `overall =
"minor"`; the code instead derives `overall` from the unrounded mean
`30/23 > 1.3` and returns `"moderate"`. -/
theorem C1_counterexample :
    (assess_severity dmgs23).score ≤ 1.3 ∧
    dmgs23.all (fun d => !(d.severity == some "severe")) = true ∧
    (assess_severity dmgs23).overall = "moderate" := by
  refine ⟨by decide, by decide, by decide⟩

/-- C1 (amended): for every non-empty damage list the verdict's score is
the arithmetic mean of the per-damage weights (minor 1, moderate 2,
severe 3, unknown or missing 1) rounded to two decimals, and the overall
severity is obtained by applying the fixed thresholds (`≤ 1.3` minor,
`≤ 2.3` moderate, else severe) to the unrounded mean, escalated one step
from minor to moderate when some damage is severe. -/
theorem C1_amended (damages : List Damage) (h : damages ≠ []) :
    (assess_severity damages).score =
      round2 ((damages.map claimWeight).sum / (damages.length : ℚ)) ∧
    (assess_severity damages).overall =
      specOverall ((damages.map claimWeight).sum / (damages.length : ℚ))
        (damages.any fun d => d.severity == some "severe") := by
  obtain ⟨d, ds, rfl⟩ : ∃ d ds, damages = d :: ds := by
    cases damages with
    | nil => exact absurd rfl h
    | cons a l => exact ⟨a, l, rfl⟩
  have hw : (d :: ds).map claimWeight = (d :: ds).map damageWeight :=
    List.map_congr_left fun x _ => claimWeight_eq x
  rw [hw]
  exact ⟨rfl, rfl⟩

/-- C1 (witness for the amended theorem): the amended statement evaluated
on the twenty-three-damage list. -/
theorem C1_amended_witness :
    dmgs23 ≠ [] ∧
    ((assess_severity dmgs23).score =
      round2 ((dmgs23.map claimWeight).sum / (dmgs23.length : ℚ)) ∧
    (assess_severity dmgs23).overall =
      specOverall ((dmgs23.map claimWeight).sum / (dmgs23.length : ℚ))
        (dmgs23.any fun d => d.severity == some "severe")) :=
  ⟨by decide, C1_amended dmgs23 (by decide)⟩

/-! Claim C2. -/

/-- C2: for every damage in the input list, the estimator's line item has
action `Replace` exactly when the damage's severity is `severe` or its
damage type is `shatter` or `structural`, and `Repair` otherwise; the
chosen action selects the cost range (replacement vs repair) used for the
part cost and the labor-hours figure of the line item. -/
theorem C2_replace_decision (cd : CostData) (sa : SeverityVerdict)
    (target : Option String) (damages : List Damage) (d : Damage) (hd : d ∈ damages) :
    lineItemFor cd (resolvedCurrency cd target).1 d ∈
      (estimate_costs damages sa target cd).line_items ∧
    ((lineItemFor cd (resolvedCurrency cd target).1 d).action = "Replace" ↔
      (effSeverity d = "severe" ∨ effDamageType d = "shatter" ∨
        effDamageType d = "structural")) ∧
    ((lineItemFor cd (resolvedCurrency cd target).1 d).action ≠ "Replace" →
      (lineItemFor cd (resolvedCurrency cd target).1 d).action = "Repair") ∧
    ((lineItemFor cd (resolvedCurrency cd target).1 d).action = "Replace" →
      (lineItemFor cd (resolvedCurrency cd target).1 d).part_cost =
        round2 (interp (partInfoFor cd d).replacement_cost (multiplierFor cd d) *
          (resolvedCurrency cd target).1) ∧
      (lineItemFor cd (resolvedCurrency cd target).1 d).labor_hours =
        (partInfoFor cd d).labor_hours.replacement) ∧
    ((lineItemFor cd (resolvedCurrency cd target).1 d).action = "Repair" →
      (lineItemFor cd (resolvedCurrency cd target).1 d).part_cost =
        round2 (interp (partInfoFor cd d).repair_cost (multiplierFor cd d) *
          (resolvedCurrency cd target).1) ∧
      (lineItemFor cd (resolvedCurrency cd target).1 d).labor_hours =
        (partInfoFor cd d).labor_hours.repair) := by
  have hiff : needsReplacement d = true ↔
      (effSeverity d = "severe" ∨ effDamageType d = "shatter" ∨
        effDamageType d = "structural") := by
    simp [needsReplacement]
  refine ⟨List.mem_map_of_mem _ hd, ?_, ?_, ?_, ?_⟩
  · rw [← hiff]
    cases hnr : needsReplacement d <;> simp [lineItemFor, actionFor, hnr]
  · cases hnr : needsReplacement d <;> simp [lineItemFor, actionFor, hnr]
  · intro ha
    cases hnr : needsReplacement d with
    | false => simp [lineItemFor, actionFor, hnr] at ha
    | true =>
      constructor <;>
        simp [lineItemFor, actionFor, partCostBase, selectedRange, laborHoursFor, hnr]
  · intro ha
    cases hnr : needsReplacement d with
    | true => simp [lineItemFor, actionFor, hnr] at ha
    | false =>
      constructor <;>
        simp [lineItemFor, actionFor, partCostBase, selectedRange, laborHoursFor, hnr]

/-- C2 (witness): the moderate shattered windshield is forced to
`Replace` by its damage type. -/
theorem C2_replace_decision_witness :
    dShatterWindshield ∈ [dShatterWindshield] ∧
    ((lineItemFor cdSample (resolvedCurrency cdSample none).1 dShatterWindshield).action =
        "Replace" ↔
      (effSeverity dShatterWindshield = "severe" ∨
        effDamageType dShatterWindshield = "shatter" ∨
        effDamageType dShatterWindshield = "structural")) :=
  ⟨by decide,
   (C2_replace_decision cdSample saSample none [dShatterWindshield] dShatterWindshield
      (by decide)).2.1⟩

/-! Claim C3. -/

/-- C3 (counterexample): a crack on the hood with a positive multiplier
and a paint range of positive width (`[0, 1/250]`) still produces
`paint_cost = 0`, because the converted interpolated paint cost `1/250`
rounds to zero at two decimals; the claim asserts it would be positive. -/
theorem C3_counterexample :
    effDamageType crackHood = "crack" ∧ effPart crackHood = "hood" ∧
    0 < multiplierFor cdPaintTiny crackHood ∧
    cdPaintTiny.paint_cost_per_panel.min < cdPaintTiny.paint_cost_per_panel.max ∧
    (estimate_costs [crackHood] saSample none cdPaintTiny).line_items.map
      LineItem.paint_cost = [0] := by
  refine ⟨by decide, by decide, by decide, by decide, by decide⟩

/-- C3 (amended): paint is suppressed (paint cost 0) exactly when the
damage type is `shatter` or `crack` and the part is non-paintable
(`headlight`, `taillight`, `windshield`, `side_mirror`); otherwise the
interpolated panel paint cost is converted, rounded, and included in the
subtotal.  A crack on the windshield gives paint cost 0; a crack on the
hood gives a positive paint cost provided the converted interpolated
paint cost is at least half a cent (`1/200`), the amendment forced by the
rounding counterexample. -/
theorem C3_amended (cd : CostData) (rate : ℚ) (d : Damage) :
    (needsPaint d = false ↔
      ((effDamageType d = "shatter" ∨ effDamageType d = "crack") ∧
       (effPart d = "headlight" ∨ effPart d = "taillight" ∨
        effPart d = "windshield" ∨ effPart d = "side_mirror"))) ∧
    (needsPaint d = false → (lineItemFor cd rate d).paint_cost = 0) ∧
    (needsPaint d = true →
      (lineItemFor cd rate d).paint_cost = round2 (paintCostBase cd d * rate) ∧
      (lineItemFor cd rate d).subtotal =
        round2 ((partCostBase cd d + laborCostBase cd d + paintCostBase cd d) * rate)) ∧
    (effDamageType d = "crack" → effPart d = "windshield" →
      (lineItemFor cd rate d).paint_cost = 0) ∧
    (effDamageType d = "crack" → effPart d = "hood" →
      1 / 200 ≤ paintCostBase cd d * rate →
      0 < (lineItemFor cd rate d).paint_cost) := by
  refine ⟨by simp [needsPaint]; tauto, ?_, ?_, ?_, ?_⟩
  · intro h
    simp [lineItemFor, h]
  · intro h
    constructor <;> simp [lineItemFor, h]
  · intro h1 h2
    have hnp : needsPaint d = false := by simp [needsPaint, h1, h2]
    simp [lineItemFor, hnp]
  · intro h1 h2 h3
    have hp : needsPaint d = true := by simp [needsPaint, h1, h2]
    simpa [lineItemFor, hp] using round2_pos h3

/-- C3 (witness for the amended theorem): a minor crack on the hood in
the sample catalog gets a positive paint cost. -/
theorem C3_amended_witness :
    1 / 200 ≤ paintCostBase cdSample crackHood * 1 ∧
    0 < (lineItemFor cdSample 1 crackHood).paint_cost :=
  ⟨by decide, (C3_amended cdSample 1 crackHood).2.2.2.2 (by decide) (by decide) (by decide)⟩

/-! Claim C4. -/

/-- C4: for every catalog satisfying the invariants, the summary's tax is
the fixed tax rate (0.18, hardcoded in the estimator) applied to the
unrounded base-currency subtotal, the total is subtotal plus tax, every
monetary summary figure is the corresponding unrounded base-currency
total multiplied by the resolved exchange rate and rounded at
presentation, and the summary carries the resolved currency code and
symbol. -/
theorem C4_summary (damages : List Damage) (sa : SeverityVerdict)
    (target : Option String) (cd : CostData) (hinv : CatalogInvariants cd) :
    (estimate_costs damages sa target cd).summary.total_parts =
      round2 (partsBase cd damages * (resolvedCurrency cd target).1) ∧
    (estimate_costs damages sa target cd).summary.total_labor =
      round2 (laborBase cd damages * (resolvedCurrency cd target).1) ∧
    (estimate_costs damages sa target cd).summary.total_paint =
      round2 (paintTotalBase cd damages * (resolvedCurrency cd target).1) ∧
    (estimate_costs damages sa target cd).summary.subtotal =
      round2 (subtotalBase cd damages * (resolvedCurrency cd target).1) ∧
    (estimate_costs damages sa target cd).summary.tax_rate = taxRate ∧
    (estimate_costs damages sa target cd).summary.tax =
      round2 (taxRate * subtotalBase cd damages * (resolvedCurrency cd target).1) ∧
    (estimate_costs damages sa target cd).summary.total =
      round2 ((subtotalBase cd damages + taxRate * subtotalBase cd damages) *
        (resolvedCurrency cd target).1) ∧
    (estimate_costs damages sa target cd).summary.currency =
      (resolvedCurrency cd target).2.2 ∧
    (estimate_costs damages sa target cd).summary.symbol =
      (resolvedCurrency cd target).2.1 := by
  refine ⟨rfl, rfl, rfl, rfl, rfl, ?_, ?_, rfl, rfl⟩
  · exact congrArg round2 (by unfold subtotalBase; ring)
  · exact congrArg round2 (by unfold subtotalBase; ring)

/-- C4 (witness): the tax and currency facts evaluated on the sample
catalog in USD. -/
theorem C4_summary_witness :
    CatalogInvariants cdSample ∧
    (estimate_costs [dShatterWindshield] saSample (some "USD") cdSample).summary.tax =
      round2 (taxRate * subtotalBase cdSample [dShatterWindshield] *
        (resolvedCurrency cdSample (some "USD")).1) ∧
    (estimate_costs [dShatterWindshield] saSample (some "USD") cdSample).summary.currency =
      (resolvedCurrency cdSample (some "USD")).2.2 := by
  have h := C4_summary [dShatterWindshield] saSample (some "USD") cdSample (by decide)
  exact ⟨by decide, h.2.2.2.2.2.1, h.2.2.2.2.2.2.2.1⟩

/-! Claim C5. -/

/-- C5 (counterexample): with the invariant-respecting catalog `cdBig`
(exchange rate 100 for currency `BIG`, base grand total `11.803`), the
`BIG` estimate totals `1180.30` while the base-currency total `11.80`
multiplied by the rate gives `1180.00`: a gap of `0.30`, far beyond the
claimed `0.01` tolerance. -/
theorem C5_counterexample :
    cdBig.exchange_rates.lookup "BIG" = some ⟨100, "B"⟩ ∧
    CatalogInvariants cdBig ∧
    1 / 100 <
      |(estimate_costs [dPlainMinor] saSample (some "BIG") cdBig).summary.total -
        (estimate_costs [dPlainMinor] saSample none cdBig).summary.total * 100| := by
  refine ⟨by decide, by decide, by decide⟩

/-- C5 (amended): estimating in a catalog currency X agrees with
estimating in the base currency and multiplying by X's rate up to
`0.005 * (rate + 1)` — the bound forced by rounding both totals to two
decimals; the claimed fixed `0.01` tolerance holds only for rates at
most 1. -/
theorem C5_amended (damages : List Damage) (sa : SeverityVerdict) (cd : CostData)
    (X : String) (ci : CurrencyInfo) (h1 : X ≠ "")
    (h2 : cd.exchange_rates.lookup X = some ci) (h3 : 0 ≤ ci.rate) :
    |(estimate_costs damages sa (some X) cd).summary.total -
      (estimate_costs damages sa none cd).summary.total * ci.rate| ≤
    1 / 200 * (ci.rate + 1) := by
  have hres : resolvedCurrency cd (some X) = (ci.rate, ci.symbol, X) := by
    simp [resolvedCurrency, h1, h2]
  have hx : (estimate_costs damages sa (some X) cd).summary.total =
      round2 ((subtotalBase cd damages + subtotalBase cd damages * taxRate) *
        (ci.rate, ci.symbol, X).1) := by
    show round2 ((subtotalBase cd damages + subtotalBase cd damages * taxRate) *
      (resolvedCurrency cd (some X)).1) = _
    rw [hres]
  have hb : (estimate_costs damages sa none cd).summary.total =
      round2 ((subtotalBase cd damages + subtotalBase cd damages * taxRate) * 1) := rfl
  rw [hx, hb]
  set T := subtotalBase cd damages + subtotalBase cd damages * taxRate with hT
  have e1 : |round2 (T * ci.rate) - T * ci.rate| ≤ 1 / 200 := abs_round2_sub _
  have e2 : |T * 1 - round2 (T * 1)| ≤ 1 / 200 := by
    rw [abs_sub_comm]
    exact abs_round2_sub _
  have e3 : |T * 1 - round2 (T * 1)| * ci.rate ≤ 1 / 200 * ci.rate :=
    mul_le_mul_of_nonneg_right e2 h3
  calc |round2 (T * ci.rate) - round2 (T * 1) * ci.rate|
      ≤ |round2 (T * ci.rate) - T * ci.rate| +
        |T * ci.rate - round2 (T * 1) * ci.rate| := abs_sub_le _ _ _
    _ = |round2 (T * ci.rate) - T * ci.rate| + |T * 1 - round2 (T * 1)| * ci.rate := by
        rw [show T * ci.rate - round2 (T * 1) * ci.rate =
          (T * 1 - round2 (T * 1)) * ci.rate by ring, abs_mul, abs_of_nonneg h3]
    _ ≤ 1 / 200 + 1 / 200 * ci.rate := add_le_add e1 e3
    _ = 1 / 200 * (ci.rate + 1) := by ring

/-- C5 (witness for the amended theorem): the amended bound evaluated on
the extreme-rate catalog. -/
theorem C5_amended_witness :
    ("BIG" : String) ≠ "" ∧
    cdBig.exchange_rates.lookup "BIG" = some ⟨100, "B"⟩ ∧
    |(estimate_costs [dPlainMinor] saSample (some "BIG") cdBig).summary.total -
      (estimate_costs [dPlainMinor] saSample none cdBig).summary.total * (100 : ℚ)| ≤
    1 / 200 * ((100 : ℚ) + 1) :=
  ⟨by decide, by decide,
   C5_amended [dPlainMinor] saSample cdBig "BIG" ⟨100, "B"⟩ (by decide) (by decide) (by decide)⟩

/-! Claim C6. -/

/-- C6 (counterexample): in the invariant-respecting catalog `cdDeg` the
selected repair range is the single point `1/500`; the multiplier `0.5`
is in `[0,1]` and the resolved rate is 1, yet the rounded `part_cost` is
`0`, strictly below the claimed lower bound `min * rate = 1/500`. -/
theorem C6_counterexample :
    CatalogInvariants cdDeg ∧
    0 ≤ multiplierFor cdDeg dPlainMinor ∧ multiplierFor cdDeg dPlainMinor ≤ 1 ∧
    (selectedRange cdDeg dPlainMinor).min ≤ (selectedRange cdDeg dPlainMinor).max ∧
    (lineItemFor cdDeg (resolvedCurrency cdDeg none).1 dPlainMinor).part_cost <
      (selectedRange cdDeg dPlainMinor).min * (resolvedCurrency cdDeg none).1 := by
  refine ⟨by decide, by decide, by decide, by decide, by decide⟩

/-- C6 (amended): for a multiplier in `[0,1]`, a selected cost range with
`min ≤ max`, and a nonnegative resolved rate, the line item's `part_cost`
lies within the rate-scaled selected range widened by the `1/200`
presentation-rounding tolerance — the amendment forced by the rounding
counterexample. -/
theorem C6_amended (cd : CostData) (target : Option String) (d : Damage)
    (hm0 : 0 ≤ multiplierFor cd d) (hm1 : multiplierFor cd d ≤ 1)
    (hr : 0 ≤ (resolvedCurrency cd target).1)
    (hrange : (selectedRange cd d).min ≤ (selectedRange cd d).max) :
    (selectedRange cd d).min * (resolvedCurrency cd target).1 - 1 / 200 ≤
      (lineItemFor cd (resolvedCurrency cd target).1 d).part_cost ∧
    (lineItemFor cd (resolvedCurrency cd target).1 d).part_cost ≤
      (selectedRange cd d).max * (resolvedCurrency cd target).1 + 1 / 200 := by
  have hbase : (selectedRange cd d).min ≤ partCostBase cd d ∧
      partCostBase cd d ≤ (selectedRange cd d).max := by
    unfold partCostBase interp
    constructor <;> nlinarith [hm0, hm1, hrange]
  have h1 : (selectedRange cd d).min * (resolvedCurrency cd target).1 ≤
      partCostBase cd d * (resolvedCurrency cd target).1 :=
    mul_le_mul_of_nonneg_right hbase.1 hr
  have h2 : partCostBase cd d * (resolvedCurrency cd target).1 ≤
      (selectedRange cd d).max * (resolvedCurrency cd target).1 :=
    mul_le_mul_of_nonneg_right hbase.2 hr
  have habs := abs_le.mp (abs_round2_sub (partCostBase cd d * (resolvedCurrency cd target).1))
  have hpc : (lineItemFor cd (resolvedCurrency cd target).1 d).part_cost =
      round2 (partCostBase cd d * (resolvedCurrency cd target).1) := rfl
  rw [hpc]
  constructor <;> linarith [habs.1, habs.2]

/-- C6 (witness for the amended theorem): the widened range bound
evaluated on the shattered windshield in the sample catalog. -/
theorem C6_amended_witness :
    0 ≤ multiplierFor cdSample dShatterWindshield ∧
    multiplierFor cdSample dShatterWindshield ≤ 1 ∧
    0 ≤ (resolvedCurrency cdSample none).1 ∧
    (selectedRange cdSample dShatterWindshield).min ≤
      (selectedRange cdSample dShatterWindshield).max ∧
    ((selectedRange cdSample dShatterWindshield).min * (resolvedCurrency cdSample none).1 -
        1 / 200 ≤
      (lineItemFor cdSample (resolvedCurrency cdSample none).1 dShatterWindshield).part_cost ∧
     (lineItemFor cdSample (resolvedCurrency cdSample none).1 dShatterWindshield).part_cost ≤
      (selectedRange cdSample dShatterWindshield).max * (resolvedCurrency cdSample none).1 +
        1 / 200) :=
  ⟨by decide, by decide, by decide, by decide,
   C6_amended cdSample none dShatterWindshield (by decide) (by decide) (by decide) (by decide)⟩

/-! Claim C7. -/

/-- C7: for every list of line items, the repair-day estimate is the
total labor hours divided by 6, rounded to the nearest integer, floored
at 1, plus a 2-day buffer exactly when some line item's action is
`Replace`; in particular 12 labor hours give 2 days with no replacement
and 4 days with one. -/
theorem C7_repair_days :
    (∀ items : List LineItem,
      estimate_repair_time items =
        max 1 (round ((items.map LineItem.labor_hours).sum / 6)) +
          (if items.any (fun item => item.action == "Replace") then 2 else 0)) ∧
    (itemsNoReplace.map LineItem.labor_hours).sum = 12 ∧
    (itemsNoReplace.any fun item => item.action == "Replace") = false ∧
    estimate_repair_time itemsNoReplace = 2 ∧
    (itemsWithReplace.map LineItem.labor_hours).sum = 12 ∧
    (itemsWithReplace.any fun item => item.action == "Replace") = true ∧
    estimate_repair_time itemsWithReplace = 4 := by
  refine ⟨?_, by decide, by decide, by decide, by decide, by decide, by decide⟩
  intro items
  unfold estimate_repair_time
  cases h : items.any fun item => item.action == "Replace" <;> simp [h]

/-! Claim C8. -/

/-- C8: the empty damage list yields the `none` verdict with score 0 and
empty breakdown, and, for every severity assessment, target currency and
catalog, an estimate with no line items, all-zero summary figures, and at
least one estimated repair day. -/
theorem C8_empty :
    (assess_severity []).overall = "none" ∧
    (assess_severity []).score = 0 ∧
    (assess_severity []).breakdown = [] ∧
    ∀ (sa : SeverityVerdict) (target : Option String) (cd : CostData),
      (estimate_costs [] sa target cd).line_items = [] ∧
      (estimate_costs [] sa target cd).summary.total_parts = 0 ∧
      (estimate_costs [] sa target cd).summary.total_labor = 0 ∧
      (estimate_costs [] sa target cd).summary.total_paint = 0 ∧
      (estimate_costs [] sa target cd).summary.subtotal = 0 ∧
      (estimate_costs [] sa target cd).summary.tax = 0 ∧
      (estimate_costs [] sa target cd).summary.total = 0 ∧
      1 ≤ (estimate_costs [] sa target cd).estimated_repair_days := by
  refine ⟨rfl, rfl, rfl, ?_⟩
  intro sa target cd
  simp [estimate_costs, partsBase, laborBase, paintTotalBase, round2,
    estimate_repair_time, taxRate]

/-! Claim C9. -/

/-- C9 (counterexample): report generation over the hood-dent fixture
changes the severity verdict it was given — the enrichment step attaches
aggregated cost fields to the shared breakdown entries — so the inputs
are not left unchanged and the breakdown entries do not keep exactly
their prior fields. -/
theorem C9_counterexample :
    (generate_report detSample saHood ceHood none "ts" "iso").2 ≠ saHood ∧
    (generate_report detSample saHood ceHood none "ts" "iso").2.breakdown.map
        BreakdownEntry.part_cost ≠
      saHood.breakdown.map BreakdownEntry.part_cost := by
  refine ⟨by decide, by decide⟩

/-- C9 (amended): report generation preserves every non-cost field of the
severity verdict and of each breakdown entry; the only change is the
best-effort enrichment, which attaches the rounded aggregated line-item
costs to exactly those entries whose nonempty part key has aggregated
costs, and leaves every other entry untouched. -/
theorem C9_amended (det : DetectionResult) (sa : SeverityVerdict) (ce : CostEstimate)
    (img : Option String) (nowCompact nowIso : String) :
    ((generate_report det sa ce img nowCompact nowIso).2.overall = sa.overall ∧
     (generate_report det sa ce img nowCompact nowIso).2.label = sa.label ∧
     (generate_report det sa ce img nowCompact nowIso).2.description = sa.description ∧
     (generate_report det sa ce img nowCompact nowIso).2.color = sa.color ∧
     (generate_report det sa ce img nowCompact nowIso).2.icon = sa.icon ∧
     (generate_report det sa ce img nowCompact nowIso).2.action = sa.action ∧
     (generate_report det sa ce img nowCompact nowIso).2.score = sa.score ∧
     (generate_report det sa ce img nowCompact nowIso).2.damage_count = sa.damage_count ∧
     (generate_report det sa ce img nowCompact nowIso).2.breakdown =
       sa.breakdown.map (enrichEntry (lineItemsByPart ce.line_items))) ∧
    ∀ (t : List (String × CostAgg)) (e : BreakdownEntry),
      (enrichEntry t e).part = e.part ∧
      (enrichEntry t e).damage_type = e.damage_type ∧
      (enrichEntry t e).severity = e.severity ∧
      (enrichEntry t e).severity_label = e.severity_label ∧
      (enrichEntry t e).color = e.color ∧
      (enrichEntry t e).icon = e.icon ∧
      (enrichEntry t e).confidence = e.confidence ∧
      (enrichEntry t e).description = e.description ∧
      ((e.part = "" ∨ t.lookup e.part = none) → enrichEntry t e = e) ∧
      (e.part ≠ "" → ∀ c, t.lookup e.part = some c →
        (enrichEntry t e).part_cost = some (round2 c.part_cost) ∧
        (enrichEntry t e).labor_cost = some (round2 c.labor_cost) ∧
        (enrichEntry t e).paint_cost = some (round2 c.paint_cost) ∧
        (enrichEntry t e).total_cost = some (round2 c.subtotal)) := by
  refine ⟨⟨rfl, rfl, rfl, rfl, rfl, rfl, rfl, rfl, rfl⟩, ?_⟩
  intro t e
  by_cases hp : e.part = ""
  · simp [enrichEntry, hp]
  · cases hl : t.lookup e.part with
    | none => simp [enrichEntry, hp, hl]
    | some c => simp [enrichEntry, hp, hl]

/-- C9 (witness for the amended theorem): on the hood-dent fixture the
enrichment attaches the aggregated part cost to the hood entry. -/
theorem C9_amended_witness :
    (breakdownOf dHoodDent).part ≠ "" ∧
    (lineItemsByPart ceHood.line_items).lookup (breakdownOf dHoodDent).part =
      some ⟨7200, 3200, 4600, 15000⟩ ∧
    (enrichEntry (lineItemsByPart ceHood.line_items) (breakdownOf dHoodDent)).part_cost =
      some (round2 7200) := by
  have h := C9_amended detSample saHood ceHood none "ts" "iso"
  have hb := h.2 (lineItemsByPart ceHood.line_items) (breakdownOf dHoodDent)
  refine ⟨by decide, by decide, ?_⟩
  exact (hb.2.2.2.2.2.2.2.2.2 (by decide) ⟨7200, 3200, 4600, 15000⟩ (by decide)).1

/-! Claim C10. -/

/-- C10: every overall severity other than `minor` and `moderate` —
including the `none` verdict of an empty damage list — produces the
`REVIEW REQUIRED` recommendation with the adjuster-review message, while
a missing overall field defaults to `minor` and is `PRE-APPROVED`. -/
theorem C10_recommendation (o : String) (total : ℚ) (symbol : String) :
    (o ≠ "minor" → o ≠ "moderate" →
      (get_recommendation (some o) total symbol).status = "REVIEW REQUIRED" ∧
      (get_recommendation (some o) total symbol).message =
        "This claim of " ++ symbol ++ formatMoney total ++
          " requires adjuster review due to severity.") ∧
    (get_recommendation (some (assess_severity []).overall) total symbol).status =
      "REVIEW REQUIRED" ∧
    (get_recommendation none total symbol).status = "PRE-APPROVED" := by
  refine ⟨?_, ?_, rfl⟩
  · intro h1 h2
    constructor <;> simp [get_recommendation, h1, h2]
  · show (get_recommendation (some "none") total symbol).status = _
    simp [get_recommendation]

/-- C10 (witness): the `none` verdict is forced into review; a missing
overall field is pre-approved. -/
theorem C10_recommendation_witness :
    ("none" : String) ≠ "minor" ∧ ("none" : String) ≠ "moderate" ∧
    (get_recommendation (some "none") 100 "₹").status = "REVIEW REQUIRED" ∧
    (get_recommendation none 100 "₹").status = "PRE-APPROVED" := by
  have h := C10_recommendation "none" 100 "₹"
  exact ⟨by decide, by decide, (h.1 (by decide) (by decide)).1, h.2.2⟩

end VisionClaim
